import Mathlib

/-!
Verification of the libex scope machine (src/libex/libex.h).

The library implements try/catch/finally-style control flow in C via macro
expansion onto a `do { ... } while(0)` / `switch` skeleton.  The relevant
macros (libex.h lines 234-252, 280) expand as follows for

  THROWS(...) TRY(D) { tbody } IN { primary } HANDLE
  CATCH(k1) { h1 } ... OTHERWISE { hw } FINALLY { fin }

into

  exc_type THROWS;
  do {
    THROWS = ENoError;
    {
      D;                                  -- value of D is discarded
      do { tbody } while(0);              -- THROW's break exits this loop
      if (THROWS == ENoError) { primary } -- THROW's break here exits the OUTER do
    }
    switch (THROWS) {
      case ENoError: case EEarlyReturn: break;
      THROWS = ENoError; break;           -- EXC_CASE prefix (dead before 1st case)
      case k1: { h1 }
      THROWS = ENoError; break;           -- reset belongs to the PREVIOUS handler
      default: { hw }
      break;                              -- FINALLY: no reset for the last handler
    }
  } while(0);
  { fin }                                 -- finalizer: plain block, always runs

We embed this faithfully: a single mutable `THROWS` variable, `errno`,
an event trace, and a `break`-style flow flag.  A `break` raised inside
`tbody` stops at that block's own do-while; a `break` raised inside
`primary` exits the outer do-while (skipping the switch); a `break` inside a
handler exits the switch; a `break` inside the finalizer escapes the whole
frame construct (propagating into whatever loop encloses it).
-/

namespace Libex

/-! ### Error-kind taxonomy (libex.h lines 110-206, Linux errno values) -/

def ENoError : Int := 0
def EEarlyReturn : Int := -1
def ENullRef : Int := 0          -- (int)NULL
def EEnsureViolated : Int := 0
def ETooManyArgs : Int := 7      -- E2BIG
def EPermissionDenied : Int := 13
def EAddressInUse : Int := 98
def EAddressUnavailable : Int := 99
def EAddressFamilyUnsupported : Int := 97
def EResourceUnavailable : Int := 11
def EConnectionInProgress : Int := 114
def EBadDescriptor : Int := 9
def EBadMessage : Int := 74
def EResourceBusy : Int := 16
def ECanceled : Int := 125
def ENoChildProcesses : Int := 10
def EConnectionAborted : Int := 103
def EConnectionRefused : Int := 111
def EConnectionReset : Int := 104
def EDeadlock : Int := 35
def EAddressRequired : Int := 89
def EOutOfRange : Int := 33
def EFileExists : Int := 17
def EBadAddress : Int := 14
def EFileTooBig : Int := 27
def EUnreachable : Int := 113
def EIdentifierRemoved : Int := 43
def EIllegalByteSequence : Int := 84
def EInProgress : Int := 115
def EInterrupted : Int := 4
def EArgumentInvalid : Int := 22
def EIOError : Int := 5
def EDisconnected : Int := 106
def EIsDirectory : Int := 21
def ETooManyLevels : Int := 40
def EDescriptorTooBig : Int := 24
def ETooManyLinks : Int := 31
def EMessageTooBig : Int := 90
def ENameTooLong : Int := 36
def ENetworkDown : Int := 100
def ENetworkAborted : Int := 102
def ENetworkUnreachable : Int := 101
def ETooManyOpenFiles : Int := 23
def EBufferUnavailable : Int := 105
def ENoData : Int := 61
def EDeviceNotFound : Int := 19
def EPathNotFound : Int := 2
def EInvalidExecutable : Int := 8
def ENoLocks : Int := 37
def EOutOfMemory : Int := 12
def EMessageNotFound : Int := 42
def EProtocolUnavailable : Int := 92
def ENoSpaceOnDevice : Int := 28
def ENoStreamResources : Int := 63
def EInvalidStream : Int := 60
def EFunctionUnsupported : Int := 38
def ESocketNotConnected : Int := 107
def EInvalidDirectory : Int := 20
def EDirectoryNotEmpty : Int := 39
def EUnrecoverable : Int := 131
def EInvalidSocket : Int := 88
def EUnsupported : Int := 95
def EInvalidIOControl : Int := 25
def EInvalidDeviceOrAddress : Int := 6
def EInvalidSocketOp : Int := 95
def EOverflow : Int := 75
def EOwnerUnvailable : Int := 130
def EInvalidOp : Int := 1
def EBrokenPipe : Int := 32
def EProtocolError : Int := 71
def EProtocolUnsupported : Int := 93
def EProtocolInvalid : Int := 91
def EResultTooBig : Int := 34
def EReadOnly : Int := 30
def EInvalidSeek : Int := 29
def EProcessNotFound : Int := 3
def EStreamTimeout : Int := 62
def ETimedout : Int := 110
def EFileBusy : Int := 26
def EWouldBlock : Int := 11
def ECrossDeviceLink : Int := 18

/-- All errno-based error kinds of the enumeration (everything except the two
sentinels and the two zero-valued aliases `ENullRef`/`EEnsureViolated`). -/
def errnoKinds : List Int :=
  [ETooManyArgs, EPermissionDenied, EAddressInUse, EAddressUnavailable,
   EAddressFamilyUnsupported, EResourceUnavailable, EConnectionInProgress,
   EBadDescriptor, EBadMessage, EResourceBusy, ECanceled, ENoChildProcesses,
   EConnectionAborted, EConnectionRefused, EConnectionReset, EDeadlock,
   EAddressRequired, EOutOfRange, EFileExists, EBadAddress, EFileTooBig,
   EUnreachable, EIdentifierRemoved, EIllegalByteSequence, EInProgress,
   EInterrupted, EArgumentInvalid, EIOError, EDisconnected, EIsDirectory,
   ETooManyLevels, EDescriptorTooBig, ETooManyLinks, EMessageTooBig,
   ENameTooLong, ENetworkDown, ENetworkAborted, ENetworkUnreachable,
   ETooManyOpenFiles, EBufferUnavailable, ENoData, EDeviceNotFound,
   EPathNotFound, EInvalidExecutable, ENoLocks, EOutOfMemory,
   EMessageNotFound, EProtocolUnavailable, ENoSpaceOnDevice,
   ENoStreamResources, EInvalidStream, EFunctionUnsupported,
   ESocketNotConnected, EInvalidDirectory, EDirectoryNotEmpty,
   EUnrecoverable, EInvalidSocket, EUnsupported, EInvalidIOControl,
   EInvalidDeviceOrAddress, EInvalidSocketOp, EOverflow, EOwnerUnvailable,
   EInvalidOp, EBrokenPipe, EProtocolError, EProtocolUnsupported,
   EProtocolInvalid, EResultTooBig, EReadOnly, EInvalidSeek,
   EProcessNotFound, EStreamTimeout, ETimedout, EFileBusy, EWouldBlock,
   ECrossDeviceLink]

/-! ### Execution state and observable events -/

/-- Observable events recorded during execution:
user actions (`act`), the `HANDLE` switch dispatching on the current kind
(`dispatch frame kind`), the finalizer block being entered
(`finStart frame kindAtEntry`), and the finalizer block completing
normally (`finEnd frame`). -/
inductive Ev where
  | act : Nat → Ev
  | dispatch : Nat → Int → Ev
  | finStart : Nat → Int → Ev
  | finEnd : Nat → Ev
deriving DecidableEq

/-- Whether a C `break` has been executed and not yet consumed by an
enclosing loop/switch. -/
inductive Flow where
  | norm : Flow
  | brk : Flow
deriving DecidableEq

/-- The function-local state: the single `exc_type THROWS` variable declared
by the `THROWS(...)` macro (libex.h line 234) and shared by every frame of
the function, the C `errno`, and the event trace. -/
structure St where
  THROWS : Int
  errno : Int
  trace : List Ev
deriving DecidableEq

/-! ### Statements

`frame l d tb pr hs fin` is one expansion of
`TRY(D) { tb } IN { pr } HANDLE hs FINALLY { fin }`, with `l` a label
naming the frame in trace events.  Handler chains are built from
`hnil` (no more handlers), `hcatch k body rest` (`CATCH(k)`) and
`hother body` (`OTHERWISE`, which must come last, just before `FINALLY`).
`maybe n isNull r` is `MAYBE(E, R)` (line 252): `n` labels the one
evaluation of `E`, `isNull` is whether `E` evaluated to `NULL`.
`classTernary c` is the expression-statement `((C) ? ENoError : errno);`
that `TRYE`'s use of `TRY` produces (lines 236, 280): it evaluates the
ternary and discards the value. -/
inductive Stmt where
  | skip : Stmt
  | mark : Nat → Stmt
  | seq : Stmt → Stmt → Stmt
  | throw : Int → Stmt
  | maybe : Nat → Bool → Int → Stmt
  | setErrno : Int → Stmt
  | classTernary : Bool → Stmt
  | frame : Nat → Stmt → Stmt → Stmt → Stmt → Stmt → Stmt
  | hnil : Stmt
  | hcatch : Int → Stmt → Stmt → Stmt
  | hother : Stmt → Stmt
deriving DecidableEq

/-- Is a handler chain empty?  Used to decide whether a handler body that
completes normally falls through into a following `EXC_CASE` prefix
(`THROWS = ENoError; break;`) or directly into `FINALLY`'s bare `break;`. -/
def hIsNil : Stmt → Bool
  | .hnil => true
  | _ => false

/-- Does the handler chain contain a `CATCH(k)` for kind `k`, or a wildcard
`OTHERWISE`? -/
def hMatches : Stmt → Int → Bool
  | .hcatch k' _ rest, k => k' == k || hMatches rest k
  | .hother _, _ => true
  | _, _ => false

/-- The interpreter.  Follows the macro expansion shown at the top of this
file statement by statement; returns the final state and whether an
unconsumed `break` is escaping the executed statement. -/
def exec : Stmt → St → St × Flow
  | .skip, s => (s, Flow.norm)
  | .mark n, s => ({ s with trace := s.trace ++ [Ev.act n] }, Flow.norm)
  | .seq a b, s =>
    match exec a s with
    | (s1, Flow.norm) => exec b s1
    | (s1, Flow.brk) => (s1, Flow.brk)
  | .throw k, s => ({ s with THROWS := k }, Flow.brk)
  | .maybe n isNull r, s =>
    let s1 := { s with trace := s.trace ++ [Ev.act n] }
    if isNull then ({ s1 with THROWS := r }, Flow.brk) else (s1, Flow.norm)
  | .setErrno v, s => ({ s with errno := v }, Flow.norm)
  | .classTernary c, s =>
    let _discarded := if c then ENoError else s.errno
    (s, Flow.norm)
  | .frame l d tb pr hs fin, s =>
    let sPre :=
      match exec d { s with THROWS := ENoError } with
      | (s1, Flow.brk) => s1
      | (s1, Flow.norm) =>
        let s2 := (exec tb s1).1
        match (if s2.THROWS = ENoError then exec pr s2 else (s2, Flow.norm)) with
        | (s3, Flow.brk) => s3
        | (s3, Flow.norm) =>
          if s3.THROWS = ENoError ∨ s3.THROWS = EEarlyReturn then
            { s3 with trace := s3.trace ++ [Ev.dispatch l s3.THROWS] }
          else (exec hs { s3 with trace := s3.trace ++ [Ev.dispatch l s3.THROWS] }).1
    match exec fin { sPre with trace := sPre.trace ++ [Ev.finStart l sPre.THROWS] } with
    | (sf, Flow.norm) => ({ sf with trace := sf.trace ++ [Ev.finEnd l] }, Flow.norm)
    | (sf, Flow.brk) => (sf, Flow.brk)
  | .hnil, s => (s, Flow.norm)
  | .hcatch k b rest, s =>
    if s.THROWS = k then
      match exec b s with
      | (s1, Flow.brk) => (s1, Flow.norm)
      | (s1, Flow.norm) =>
        (if hIsNil rest then s1 else { s1 with THROWS := ENoError }, Flow.norm)
    else exec rest s
  | .hother b, s => ((exec b s).1, Flow.norm)

/-- `RETURN` (libex.h line 245) is `THROW(EEarlyReturn)`. -/
def RETURN : Stmt := Stmt.throw EEarlyReturn

/-- `EXIT` (libex.h line 246) is `return THROWS;`: the error kind a function
whose body is `body` hands back to its caller. -/
def EXITresult (body : Stmt) (s : St) : Int := (exec body s).1.THROWS

/-- `TRYE(X, C)` (libex.h line 280) expands to `(X); TRY((C) ? ENoError : errno)`:
execute `X`, then open a frame whose `D` argument is the ternary
classification expression (which `TRY` executes as a bare expression
statement). -/
def TRYE (x : Stmt) (c : Bool) (l : Nat) (tb pr hs fin : Stmt) : Stmt :=
  Stmt.seq x (Stmt.frame l (Stmt.classTernary c) tb pr hs fin)

/-- A state at function entry: `THROWS` is declared uninitialized by the
`THROWS(...)` macro, so we pick an arbitrary junk value. -/
def initSt : St := { THROWS := 7, errno := 0, trace := [] }

/-! ### Compositional view of one frame

`exec` on a `frame` is, by `exec_frame` below, the composition of three
phases: `atHANDLE` (entry, `D`, the try body's do-while, the guarded
primary body — returning the state at the `switch` together with `true`,
or the state of an escaping `break` together with `false` when the switch
is bypassed), `doSwitch` (the `HANDLE` switch), and `doFin` (the finalizer
block). -/

/-- Phase 1 of a frame: set `THROWS = ENoError`, run `D`, run the try body
inside its own do-while, then run the primary body if `THROWS == ENoError`.
The boolean is `true` when control reaches the `switch`, `false` when a
`break` out of `D` or out of the primary body bypasses it. -/
def atHANDLE (d tb pr : Stmt) (s : St) : St × Bool :=
  match exec d { s with THROWS := ENoError } with
  | (s1, Flow.brk) => (s1, false)
  | (s1, Flow.norm) =>
    let s2 := (exec tb s1).1
    match (if s2.THROWS = ENoError then exec pr s2 else (s2, Flow.norm)) with
    | (s3, Flow.brk) => (s3, false)
    | (s3, Flow.norm) => (s3, true)

/-- Phase 2 of a frame: the `HANDLE` switch.  Records the dispatch event;
the built-in `case ENoError: case EEarlyReturn: break;` arm skips every
user handler for the two sentinels; otherwise the handler chain runs. -/
def doSwitch (l : Nat) (hs : Stmt) (s : St) : St :=
  if s.THROWS = ENoError ∨ s.THROWS = EEarlyReturn then
    { s with trace := s.trace ++ [Ev.dispatch l s.THROWS] }
  else (exec hs { s with trace := s.trace ++ [Ev.dispatch l s.THROWS] }).1

/-- Phase 3 of a frame: the finalizer block, which follows the closed
`do { ... } while(0)` unconditionally.  A `break` executed inside it
escapes the whole frame construct. -/
def doFin (l : Nat) (fin : Stmt) (s : St) : St × Flow :=
  match exec fin { s with trace := s.trace ++ [Ev.finStart l s.THROWS] } with
  | (sf, Flow.norm) => ({ sf with trace := sf.trace ++ [Ev.finEnd l] }, Flow.norm)
  | (sf, Flow.brk) => (sf, Flow.brk)

/-- Labels of all frames occurring in a statement. -/
def labels : Stmt → List Nat
  | .seq a b => labels a ++ labels b
  | .frame l d tb pr hs fin =>
    l :: (labels d ++ labels tb ++ labels pr ++ labels hs ++ labels fin)
  | .hcatch _ b rest => labels b ++ labels rest
  | .hother b => labels b
  | _ => []

/-- Does an event record the finalizer of frame `l` being entered? -/
def isFinStartOf (l : Nat) : Ev → Bool
  | Ev.finStart l2 _ => l2 == l
  | _ => false

/-- How many times frame `l`'s finalizer was entered in a trace. -/
def finCount (l : Nat) (tr : List Ev) : Nat := List.countP (isFinStartOf l) tr

/-- `n` nested frames (labels `n-1, ..., 0` outermost-in), each with the next
frame as its whole try body, empty primary body, no handlers and an empty
finalizer; the innermost try body is `b`. -/
def nestTRY : Nat → Stmt → Stmt
  | 0, b => b
  | n + 1, b => Stmt.frame n Stmt.skip (nestTRY n b) Stmt.skip Stmt.hnil Stmt.skip

/-- Is an event a `HANDLE` dispatch? -/
def isDispatchEv : Ev → Bool
  | Ev.dispatch _ _ => true
  | _ => false

/-- A state whose current kind is `ENoError` (trace empty, errno 0). -/
def zeroSt : St := { THROWS := 0, errno := 0, trace := [] }

end Libex

namespace Libex

/-! ### Basic lemmas -/

@[simp] lemma finCount_nil (l : Nat) : finCount l [] = 0 := rfl

@[simp] lemma finCount_append (l : Nat) (a b : List Ev) :
    finCount l (a ++ b) = finCount l a + finCount l b :=
  List.countP_append _ _ _

@[simp] lemma isFinStartOf_act (l n : Nat) : isFinStartOf l (Ev.act n) = false := rfl

@[simp] lemma isFinStartOf_dispatch (l l2 : Nat) (k : Int) :
    isFinStartOf l (Ev.dispatch l2 k) = false := rfl

@[simp] lemma isFinStartOf_finEnd (l l2 : Nat) :
    isFinStartOf l (Ev.finEnd l2) = false := rfl

@[simp] lemma isFinStartOf_finStart (l l2 : Nat) (k : Int) :
    isFinStartOf l (Ev.finStart l2 k) = (l2 == l) := rfl

@[simp] lemma finCount_cons (l : Nat) (e : Ev) (tr : List Ev) :
    finCount l (e :: tr) = finCount l tr + (if isFinStartOf l e then 1 else 0) :=
  List.countP_cons _ _ _

@[simp] lemma finCount_act (l n : Nat) : finCount l [Ev.act n] = 0 := rfl

@[simp] lemma finCount_dispatch (l l2 : Nat) (k : Int) :
    finCount l [Ev.dispatch l2 k] = 0 := rfl

@[simp] lemma finCount_finEnd (l l2 : Nat) : finCount l [Ev.finEnd l2] = 0 := rfl

@[simp] lemma finCount_finStart (l l2 : Nat) (k : Int) :
    finCount l [Ev.finStart l2 k] = if l2 = l then 1 else 0 := by
  simp [finCount, List.countP, List.countP.go, isFinStartOf]

/-- Unfolding a frame into its three phases. -/
lemma exec_frame (l : Nat) (d tb pr hs fin : Stmt) (s : St) :
    exec (.frame l d tb pr hs fin) s =
      doFin l fin (if (atHANDLE d tb pr s).2 then doSwitch l hs (atHANDLE d tb pr s).1
                   else (atHANDLE d tb pr s).1) := by
  rcases h1 : exec d { s with THROWS := ENoError } with ⟨s1, f1⟩
  simp only [exec, atHANDLE, doSwitch, doFin, h1]
  cases f1
  · rcases h2 : (if (exec tb s1).1.THROWS = ENoError
                 then exec pr (exec tb s1).1 else ((exec tb s1).1, Flow.norm)) with ⟨s3, f3⟩
    simp only [h2]
    cases f3
    · by_cases hs3 : s3.THROWS = ENoError ∨ s3.THROWS = EEarlyReturn <;>
        simp [hs3]
    · rfl
  · rfl

/-! ### Trace extension and finalizer counting -/

lemma atHANDLE_ext (l : Nat) (d tb pr : Stmt)
    (Hd : ∀ s : St, ∃ tr, (exec d s).1.trace = s.trace ++ tr ∧
      (l ∉ labels d → finCount l tr = 0))
    (Htb : ∀ s : St, ∃ tr, (exec tb s).1.trace = s.trace ++ tr ∧
      (l ∉ labels tb → finCount l tr = 0))
    (Hpr : ∀ s : St, ∃ tr, (exec pr s).1.trace = s.trace ++ tr ∧
      (l ∉ labels pr → finCount l tr = 0))
    (s : St) :
    ∃ tr, (atHANDLE d tb pr s).1.trace = s.trace ++ tr ∧
      (l ∉ labels d → l ∉ labels tb → l ∉ labels pr → finCount l tr = 0) := by
  unfold atHANDLE
  obtain ⟨trd, hdeq, hdc⟩ := Hd { s with THROWS := ENoError }
  rcases h1 : exec d { s with THROWS := ENoError } with ⟨s1, f1⟩
  rw [h1] at hdeq
  simp only at hdeq
  cases f1
  · obtain ⟨trtb, htbeq, htbc⟩ := Htb s1
    by_cases h2 : (exec tb s1).1.THROWS = ENoError
    · obtain ⟨trpr, hpreq, hprc⟩ := Hpr (exec tb s1).1
      rcases h3 : exec pr (exec tb s1).1 with ⟨s3, f3⟩
      rw [h3] at hpreq
      simp only at hpreq
      refine ⟨trd ++ trtb ++ trpr, ?_, ?_⟩
      · simp only [h2, if_pos, h3]
        cases f3 <;> simp [hpreq, htbeq, hdeq, List.append_assoc]
      · intro c1 c2 c3
        simp [hdc c1, htbc c2, hprc c3]
    · refine ⟨trd ++ trtb, ?_, ?_⟩
      · simp only [h2, if_neg, ite_false]
        simp [htbeq, hdeq, List.append_assoc]
      · intro c1 c2 _
        simp [hdc c1, htbc c2]
  · exact ⟨trd, hdeq, fun c1 _ _ => hdc c1⟩

lemma doSwitch_ext (l l2 : Nat) (hs : Stmt)
    (Hhs : ∀ s : St, ∃ tr, (exec hs s).1.trace = s.trace ++ tr ∧
      (l ∉ labels hs → finCount l tr = 0))
    (s : St) :
    ∃ tr, (doSwitch l2 hs s).trace = s.trace ++ tr ∧
      (l ∉ labels hs → finCount l tr = 0) := by
  unfold doSwitch
  by_cases h : s.THROWS = ENoError ∨ s.THROWS = EEarlyReturn
  · exact ⟨[Ev.dispatch l2 s.THROWS], by simp [h], by simp⟩
  · obtain ⟨trh, hheq, hhc⟩ :=
      Hhs { s with trace := s.trace ++ [Ev.dispatch l2 s.THROWS] }
    refine ⟨[Ev.dispatch l2 s.THROWS] ++ trh, ?_, ?_⟩
    · simp only [h, ite_false, if_neg]
      simp only at hheq
      simp [hheq, List.append_assoc]
    · intro c1
      simp [hhc c1]

lemma doFin_ext (l l2 : Nat) (fin : Stmt)
    (Hfin : ∀ s : St, ∃ tr, (exec fin s).1.trace = s.trace ++ tr ∧
      (l ∉ labels fin → finCount l tr = 0))
    (s : St) :
    ∃ tr, (doFin l2 fin s).1.trace = s.trace ++ tr ∧
      (l ∉ labels fin → finCount l tr = if l2 = l then 1 else 0) := by
  unfold doFin
  obtain ⟨trf, hfeq, hfc⟩ :=
    Hfin { s with trace := s.trace ++ [Ev.finStart l2 s.THROWS] }
  rcases h1 : exec fin { s with trace := s.trace ++ [Ev.finStart l2 s.THROWS] }
    with ⟨sf, f1⟩
  rw [h1] at hfeq
  simp only at hfeq
  cases f1
  · refine ⟨[Ev.finStart l2 s.THROWS] ++ trf ++ [Ev.finEnd l2], ?_, ?_⟩
    · simp [hfeq, List.append_assoc]
    · intro c1; simp [hfc c1]
  · refine ⟨[Ev.finStart l2 s.THROWS] ++ trf, ?_, ?_⟩
    · simp [hfeq, List.append_assoc]
    · intro c1; simp [hfc c1]

/-- Execution only appends to the trace, and a statement containing no frame
labeled `l` never triggers frame `l`'s finalizer. -/
lemma exec_trace_ext (l : Nat) (t : Stmt) : ∀ s : St,
    ∃ tr, (exec t s).1.trace = s.trace ++ tr ∧
      (l ∉ labels t → finCount l tr = 0) := by
  induction t with
  | skip => exact fun s => ⟨[], by simp [exec], by simp⟩
  | mark n => exact fun s => ⟨[Ev.act n], by simp [exec], by simp⟩
  | seq a b iha ihb =>
    intro s
    obtain ⟨tra, haeq, hac⟩ := iha s
    rcases h1 : exec a s with ⟨s1, f1⟩
    rw [h1] at haeq
    simp only at haeq
    cases f1
    · obtain ⟨trb, hbeq, hbc⟩ := ihb s1
      refine ⟨tra ++ trb, ?_, ?_⟩
      · simp [exec, h1, hbeq, haeq, List.append_assoc]
      · intro c
        simp only [labels, List.mem_append, not_or] at c
        simp [hac c.1, hbc c.2]
    · refine ⟨tra, ?_, ?_⟩
      · simp [exec, h1, haeq]
      · intro c
        simp only [labels, List.mem_append, not_or] at c
        exact hac c.1
  | throw k => exact fun s => ⟨[], by simp [exec], by simp⟩
  | maybe n isNull r =>
    intro s
    refine ⟨[Ev.act n], ?_, by simp⟩
    cases isNull <;> simp [exec]
  | setErrno v => exact fun s => ⟨[], by simp [exec], by simp⟩
  | classTernary c => exact fun s => ⟨[], by simp [exec], by simp⟩
  | frame l2 d tb pr hs fin ihd ihtb ihpr ihhs ihfin =>
    intro s
    rw [exec_frame]
    obtain ⟨tra, haeq, hac⟩ := atHANDLE_ext l d tb pr ihd ihtb ihpr s
    by_cases hsw : (atHANDLE d tb pr s).2
    · obtain ⟨trs, hseq, hsc⟩ := doSwitch_ext l l2 hs ihhs (atHANDLE d tb pr s).1
      obtain ⟨trf, hfeq, hfc⟩ :=
        doFin_ext l l2 fin ihfin (doSwitch l2 hs (atHANDLE d tb pr s).1)
      refine ⟨tra ++ trs ++ trf, ?_, ?_⟩
      · simp [hsw, hfeq, hseq, haeq, List.append_assoc]
      · intro c
        have cl : ¬(l2 = l) := fun h => c (by simp [labels, h])
        have cd : l ∉ labels d := fun h => c (by simp [labels, h])
        have ctb : l ∉ labels tb := fun h => c (by simp [labels, h])
        have cpr : l ∉ labels pr := fun h => c (by simp [labels, h])
        have chs : l ∉ labels hs := fun h => c (by simp [labels, h])
        have cfin : l ∉ labels fin := fun h => c (by simp [labels, h])
        simp [hac cd ctb cpr, hsc chs, hfc cfin, cl]
    · obtain ⟨trf, hfeq, hfc⟩ := doFin_ext l l2 fin ihfin (atHANDLE d tb pr s).1
      refine ⟨tra ++ trf, ?_, ?_⟩
      · simp [hsw, hfeq, haeq, List.append_assoc]
      · intro c
        have cl : ¬(l2 = l) := fun h => c (by simp [labels, h])
        have cd : l ∉ labels d := fun h => c (by simp [labels, h])
        have ctb : l ∉ labels tb := fun h => c (by simp [labels, h])
        have cpr : l ∉ labels pr := fun h => c (by simp [labels, h])
        have cfin : l ∉ labels fin := fun h => c (by simp [labels, h])
        simp [hac cd ctb cpr, hfc cfin, cl]
  | hnil => exact fun s => ⟨[], by simp [exec], by simp⟩
  | hcatch k b rest ihb ihrest =>
    intro s
    by_cases h : s.THROWS = k
    · obtain ⟨trb, hbeq, hbc⟩ := ihb s
      rcases h1 : exec b s with ⟨s1, f1⟩
      rw [h1] at hbeq
      simp only at hbeq
      refine ⟨trb, ?_, ?_⟩
      · cases f1 <;> by_cases hn : hIsNil rest <;>
          simp [exec, h, h1, hn, hbeq]
      · intro c
        simp only [labels, List.mem_append, not_or] at c
        exact hbc c.1
    · obtain ⟨trr, hreq, hrc⟩ := ihrest s
      refine ⟨trr, ?_, ?_⟩
      · simp [exec, h, hreq]
      · intro c
        simp only [labels, List.mem_append, not_or] at c
        exact hrc c.2
  | hother b ihb =>
    intro s
    obtain ⟨trb, hbeq, hbc⟩ := ihb s
    refine ⟨trb, ?_, ?_⟩
    · simp [exec, hbeq]
    · intro c
      simp only [labels] at c
      exact hbc c

/-! ### Claims -/

/-- Claim C1: for every frame (arbitrary `D`, try body, primary body, handler
chain and finalizer, hence every exit path: normal completion, handled raise,
unhandled raise, early return, at any nesting depth), one execution of the
frame runs its finalizer exactly once: the count of `finStart l` events grows
by exactly one, provided the frame's label `l` is not reused by a nested
frame. -/
theorem C1_finalizer_exactly_once (l : Nat) (d tb pr hs fin : Stmt) (s : St)
    (hd : l ∉ labels d) (htb : l ∉ labels tb) (hpr : l ∉ labels pr)
    (hhs : l ∉ labels hs) (hfin : l ∉ labels fin) :
    finCount l (exec (.frame l d tb pr hs fin) s).1.trace
      = finCount l s.trace + 1 := by
  rw [exec_frame]
  obtain ⟨tra, haeq, hac⟩ := atHANDLE_ext l d tb pr
    (exec_trace_ext l d) (exec_trace_ext l tb) (exec_trace_ext l pr) s
  by_cases hsw : (atHANDLE d tb pr s).2
  · obtain ⟨trs, hseq, hsc⟩ :=
      doSwitch_ext l l hs (exec_trace_ext l hs) (atHANDLE d tb pr s).1
    obtain ⟨trf, hfeq, hfc⟩ :=
      doFin_ext l l fin (exec_trace_ext l fin) (doSwitch l hs (atHANDLE d tb pr s).1)
    simp [hsw, hfeq, hseq, haeq, hac hd htb hpr, hsc hhs, hfc hfin]
  · obtain ⟨trf, hfeq, hfc⟩ :=
      doFin_ext l l fin (exec_trace_ext l fin) (atHANDLE d tb pr s).1
    simp [hsw, hfeq, haeq, hac hd htb hpr, hfc hfin]

/-- Witness for C1 at a concrete frame: a raise handled by a wildcard. -/
theorem C1_finalizer_exactly_once_witness :
    ((1 : Nat) ∉ labels .skip ∧ (1 : Nat) ∉ labels (.throw 5)
      ∧ (1 : Nat) ∉ labels (.hother (.mark 20)) ∧ (1 : Nat) ∉ labels (.mark 21))
    ∧ finCount 1 (exec (.frame 1 .skip (.throw 5) .skip (.hother (.mark 20))
        (.mark 21)) initSt).1.trace = finCount 1 initSt.trace + 1 :=
  ⟨⟨by decide, by decide, by decide, by decide⟩,
    C1_finalizer_exactly_once 1 .skip (.throw 5) .skip (.hother (.mark 20))
      (.mark 21) initSt (by decide) (by decide) (by decide) (by decide) (by decide)⟩

/-- Claim C10: every frame of a function shares the single `THROWS` variable
(the one field of `St`), and `TRY` overwrites it with `ENoError` on entry
before anything of the frame runs: execution of a frame is insensitive to
the kind the variable held on entry, so no frame starts with an inherited
non-`NoError` kind. -/
theorem C10_TRY_overwrites_inherited_kind (l : Nat) (d tb pr hs fin : Stmt)
    (s : St) (k : Int) :
    exec (.frame l d tb pr hs fin) { s with THROWS := k }
      = exec (.frame l d tb pr hs fin) s := by
  rw [exec_frame, exec_frame]
  have h : atHANDLE d tb pr { s with THROWS := k } = atHANDLE d tb pr s := rfl
  rw [h]

/-- Claim C9: when the `HANDLE` switch dispatches on `ENoError` or
`EEarlyReturn`, its first arm (`case ENoError: case EEarlyReturn: break;`)
consumes the kind: no handler body of the chain executes — not even a
wildcard `OTHERWISE` — and the state passes unchanged (except for the
dispatch event) to the finalizer. -/
theorem C9_sentinels_bypass_handlers (l : Nat) (hs : Stmt) (s : St)
    (h : s.THROWS = ENoError ∨ s.THROWS = EEarlyReturn) :
    doSwitch l hs s = { s with trace := s.trace ++ [Ev.dispatch l s.THROWS] } := by
  unfold doSwitch
  rw [if_pos h]

/-- Witness for C9: `EEarlyReturn` is not caught even by a wildcard. -/
theorem C9_sentinels_bypass_handlers_witness :
    (({ THROWS := EEarlyReturn, errno := 0, trace := [] } : St).THROWS = ENoError
      ∨ ({ THROWS := EEarlyReturn, errno := 0, trace := [] } : St).THROWS = EEarlyReturn)
    ∧ doSwitch 1 (.hother (.mark 9)) { THROWS := EEarlyReturn, errno := 0, trace := [] }
      = { THROWS := EEarlyReturn, errno := 0
          trace := [] ++ [Ev.dispatch 1 ({ THROWS := EEarlyReturn, errno := 0, trace := [] } : St).THROWS] } :=
  ⟨Or.inr rfl,
    C9_sentinels_bypass_handlers 1 (.hother (.mark 9))
      { THROWS := EEarlyReturn, errno := 0, trace := [] } (Or.inr rfl)⟩

/-- Claim C8: `MAYBE(E, R)` evaluates `E` exactly once (one `act n` event);
on a null result it raises `R` (kind becomes `R`, the rest of the body is
skipped via the escaping `break`), on a non-null result it raises nothing
(kind stays `ENoError`) and the following code runs. -/
theorem C8_MAYBE_binding (n m : Nat) (r : Int) (s : St)
    (h : s.THROWS = ENoError) :
    exec (.seq (.maybe n true r) (.mark m)) s
      = ({ s with THROWS := r, trace := s.trace ++ [Ev.act n] }, Flow.brk)
    ∧ exec (.seq (.maybe n false r) (.mark m)) s
      = ({ s with THROWS := ENoError
                  trace := s.trace ++ [Ev.act n, Ev.act m] }, Flow.norm) := by
  constructor
  · simp [exec]
  · simp [exec, ← h]

/-- Witness for C8 at a concrete null and non-null binding. -/
theorem C8_MAYBE_binding_witness :
    zeroSt.THROWS = ENoError
    ∧ (exec (.seq (.maybe 1 true 5) (.mark 2)) zeroSt
        = ({ zeroSt with THROWS := 5, trace := zeroSt.trace ++ [Ev.act 1] }, Flow.brk)
      ∧ exec (.seq (.maybe 1 false 5) (.mark 2)) zeroSt
        = ({ zeroSt with THROWS := ENoError
                         trace := zeroSt.trace ++ [Ev.act 1, Ev.act 2] }, Flow.norm)) :=
  ⟨rfl, C8_MAYBE_binding 1 2 5 zeroSt rfl⟩

/-- Claim C6 (counterexample): `ENullRef` (= `(int)NULL` = 0) and
`EEnsureViolated` (= 0) coincide with `ENoError` (= 0), so the no-error
sentinel is NOT distinguishable from these two meaningful kinds. -/
theorem C6_counterexample : ENullRef = ENoError ∧ EEnsureViolated = ENoError := by
  decide

/-- Claim C6 (amended): the two sentinels are distinct from each other, and
`EEarlyReturn` (= -1) is distinct from every errno-based kind (all positive)
and from 0; but `ENullRef` and `EEnsureViolated` alias `ENoError`'s value 0,
so "no error" is one value (0) carrying three names. -/
theorem C6_sentinel_distinctness :
    ENoError ≠ EEarlyReturn
    ∧ ENullRef = ENoError ∧ EEnsureViolated = ENoError
    ∧ (∀ k ∈ errnoKinds, 0 < k)
    ∧ (∀ k ∈ errnoKinds, k ≠ ENoError ∧ k ≠ EEarlyReturn)
    ∧ ENoError = 0 := by
  decide

/-- Claim C4 (evaluation at the failing input): a raise of `EIOError` caught
by a frame whose only handler is the wildcard (hence the last handler before
`FINALLY`): the handler body completes without raising, yet the finalizer
begins with current kind `EIOError`, not `ENoError` (the `finStart 1 EIOError`
event), because `FINALLY`'s expansion `break; } } while(0);` carries no
`THROWS = ENoError` reset for the preceding handler.  With a second handler
following (so the completing handler is not last), the reset from the next
`EXC_CASE` prefix does happen (`finStart 1 ENoError`). -/
theorem C4_last_handler_not_reset :
    exec (.frame 1 .skip (.throw EIOError) .skip (.hother (.mark 20)) (.mark 21)) initSt
      = ({ THROWS := EIOError, errno := 0
           trace := [Ev.dispatch 1 EIOError, Ev.act 20, Ev.finStart 1 EIOError,
             Ev.act 21, Ev.finEnd 1] }, Flow.norm)
    ∧ EIOError ≠ ENoError
    ∧ exec (.frame 1 .skip (.throw EIOError) .skip
        (.hcatch EIOError (.mark 20) (.hother (.mark 22))) (.mark 21)) initSt
      = ({ THROWS := ENoError, errno := 0
           trace := [Ev.dispatch 1 EIOError, Ev.act 20, Ev.finStart 1 ENoError,
             Ev.act 21, Ev.finEnd 1] }, Flow.norm) := by
  decide

/-- Claim C5 (evaluation at the failing input): `TRYE(X, C)` with `C` false
and `errno` set to 5 by `X`.  `TRY(D)` executes its argument as a bare
expression statement (`{ D; do ... }`), so the classification value
`(C) ? ENoError : errno` is computed and discarded: the frame's kind stays
`ENoError`, the primary `IN` body runs (`act 7`), and `CATCH(5)` never
fires (`act 8` absent) — contradicting `TRYE`'s documented purpose of
translating an errno into the raised kind. -/
theorem C5_TRYE_classification_discarded :
    exec (TRYE (.setErrno 5) false 1 .skip (.mark 7)
        (.hcatch 5 (.mark 8) .hnil) (.mark 9)) initSt
      = ({ THROWS := ENoError, errno := 5
           trace := [Ev.act 7, Ev.dispatch 1 ENoError, Ev.finStart 1 ENoError,
             Ev.act 9, Ev.finEnd 1] }, Flow.norm)
    ∧ Ev.act 8 ∉ [Ev.act 7, Ev.dispatch 1 ENoError, Ev.finStart 1 ENoError,
        Ev.act 9, Ev.finEnd 1] := by
  decide

/-! ### Early return through nested frames (C2) -/

lemma nestTRY_RETURN_exec (n : Nat) : ∀ s : St,
    (exec (nestTRY (n + 1) RETURN) s).1.THROWS = EEarlyReturn
    ∧ (exec (nestTRY (n + 1) RETURN) s).2 = Flow.norm := by
  induction n with
  | zero =>
    intro s
    constructor <;> simp [nestTRY, RETURN, exec, ENoError, EEarlyReturn]
  | succ n ih =>
    intro s
    rcases hI : exec (nestTRY (n + 1) RETURN) { s with THROWS := ENoError }
      with ⟨si, fi⟩
    have h1 := (ih { s with THROWS := ENoError }).1
    rw [hI] at h1
    simp only at h1
    rw [show nestTRY (n + 1 + 1) RETURN
        = .frame (n + 1) .skip (nestTRY (n + 1) RETURN) .skip .hnil .skip from rfl]
    rw [exec_frame]
    have hAH : atHANDLE .skip (nestTRY (n + 1) RETURN) .skip s = (si, true) := by
      unfold atHANDLE
      have hskip : ∀ st : St, exec Stmt.skip st = (st, Flow.norm) := fun st => rfl
      simp only [hskip]
      rw [hI]
      simp only
      rw [h1]
      simp [EEarlyReturn, ENoError]
    rw [hAH]
    have hSW : doSwitch (n + 1) .hnil si
        = { si with trace := si.trace ++ [Ev.dispatch (n + 1) si.THROWS] } := by
      unfold doSwitch
      rw [if_pos (Or.inr h1)]
    simp only [hSW]
    constructor <;> simp [doFin, exec, h1]

/-- Claim C2 (counterexample): a single frame whose try body executes
`RETURN`; at the function boundary `EXIT` (`return THROWS;`) hands the
caller `EEarlyReturn` (-1), not `ENoError`. -/
theorem C2_counterexample :
    ¬ (EXITresult (nestTRY 1 RETURN) initSt = ENoError)
    ∧ EXITresult (nestTRY 1 RETURN) initSt = EEarlyReturn := by
  decide

/-- Claim C2 (amended): `EXIT` returns `THROWS` unchanged — there is no
`EarlyReturn → NoError` mapping at the function boundary.  After `RETURN`
propagates through any number of enclosing frames (none of whose handlers
can catch it, per the sentinel arm of `HANDLE`), the function returns
`EEarlyReturn` (-1) to its caller. -/
theorem C2_RETURN_reaches_caller (n : Nat) (s : St) :
    EXITresult (nestTRY (n + 1) RETURN) s = EEarlyReturn :=
  (nestTRY_RETURN_exec n s).1

/-! ### THROW inside the primary body (C3) -/

/-- Claim C3 (counterexample): a frame whose primary `IN` body raises
`EIOError` while a wildcard handler is declared.  The `break` issued by
`THROW` exits the outer `do { ... } while(0)`, skipping the `HANDLE`
switch: no dispatch event occurs and the wildcard body (`act 12`) never
runs — the raise goes straight to the finalizer, contradicting the claim
that a handler of the same frame runs. -/
theorem C3_counterexample :
    exec (.frame 1 .skip (.mark 10) (.seq (.throw EIOError) (.mark 11))
        (.hother (.mark 12)) (.mark 13)) initSt
      = ({ THROWS := EIOError, errno := 0
           trace := [Ev.act 10, Ev.finStart 1 EIOError, Ev.act 13, Ev.finEnd 1] },
         Flow.norm)
    ∧ Ev.act 12 ∉ [Ev.act 10, Ev.finStart 1 EIOError, Ev.act 13, Ev.finEnd 1]
    ∧ List.all [Ev.act 10, Ev.finStart 1 EIOError, Ev.act 13, Ev.finEnd 1]
        (fun e => !(isDispatchEv e)) = true := by
  decide

/-- Claim C3 (amended): `THROW(k)` in the try block sets the kind to `k`,
skips the rest of that block, and enters the frame's `HANDLE` dispatch, so
a matching `CATCH` of the same frame runs before the finalizer; but
`THROW(k)` in the primary `IN` block, while it sets the kind and skips the
rest of that block, bypasses `HANDLE` entirely: no dispatch, no handler,
control goes directly to the finalizer with kind `k`. -/
theorem C3_THROW_dispatch (l a b c f : Nat) (k : Int) (s : St)
    (hk0 : k ≠ ENoError) (hk1 : k ≠ EEarlyReturn) :
    exec (.frame l .skip (.seq (.throw k) (.mark a)) (.mark b)
        (.hcatch k (.mark c) .hnil) (.mark f)) s
      = ({ s with THROWS := k
                  trace := s.trace ++ [Ev.dispatch l k, Ev.act c,
                    Ev.finStart l k, Ev.act f, Ev.finEnd l] }, Flow.norm)
    ∧ exec (.frame l .skip .skip (.seq (.throw k) (.mark a))
        (.hcatch k (.mark c) .hnil) (.mark f)) s
      = ({ s with THROWS := k
                  trace := s.trace ++ [Ev.finStart l k, Ev.act f, Ev.finEnd l] },
         Flow.norm) := by
  constructor <;> simp [exec, hk0, hk1, hIsNil]

/-- Witness for C3 (amended) at kind `EIOError`. -/
theorem C3_THROW_dispatch_witness :
    (EIOError ≠ ENoError ∧ EIOError ≠ EEarlyReturn)
    ∧ (exec (.frame 1 .skip (.seq (.throw EIOError) (.mark 10)) (.mark 11)
          (.hcatch EIOError (.mark 12) .hnil) (.mark 13)) initSt
        = ({ initSt with THROWS := EIOError
                         trace := initSt.trace ++ [Ev.dispatch 1 EIOError, Ev.act 12,
                           Ev.finStart 1 EIOError, Ev.act 13, Ev.finEnd 1] }, Flow.norm)
      ∧ exec (.frame 1 .skip .skip (.seq (.throw EIOError) (.mark 10))
          (.hcatch EIOError (.mark 12) .hnil) (.mark 13)) initSt
        = ({ initSt with THROWS := EIOError
                         trace := initSt.trace ++ [Ev.finStart 1 EIOError, Ev.act 13,
                           Ev.finEnd 1] }, Flow.norm)) :=
  ⟨⟨by decide, by decide⟩,
    C3_THROW_dispatch 1 10 11 12 13 EIOError initSt (by decide) (by decide)⟩

/-! ### Inner-before-outer finalization (C7) -/

lemma doSwitch_trace_obs (l2 : Nat) (hs : Stmt) (s : St) :
    ∃ tr, (doSwitch l2 hs s).trace = s.trace ++ Ev.dispatch l2 s.THROWS :: tr := by
  unfold doSwitch
  by_cases h : s.THROWS = ENoError ∨ s.THROWS = EEarlyReturn
  · exact ⟨[], by simp [h]⟩
  · obtain ⟨tr, htr, -⟩ := exec_trace_ext 0 hs
      { s with trace := s.trace ++ [Ev.dispatch l2 s.THROWS] }
    refine ⟨tr, ?_⟩
    rw [if_neg h, htr]
    simp

lemma doFin_trace_ext (l2 : Nat) (fin : Stmt) (s : St) :
    ∃ tr, (doFin l2 fin s).1.trace = s.trace ++ tr := by
  obtain ⟨tr, htr, -⟩ := doFin_ext 0 l2 fin (exec_trace_ext 0 fin) s
  exact ⟨tr, htr⟩

/-- Claim C7: outer frame A (label `la`) whose try body contains inner frame
B (label `lb`); B's primary body raises a kind `k` that none of B's handlers
matches.  B's finalizer runs to completion (its `finEnd lb` event) strictly
before A's `HANDLE` dispatch observes the propagated kind (`dispatch la k`):
finalization is inner-to-outer. -/
theorem C7_inner_finalizes_before_outer_dispatch
    (la lb m1 m2 m3 m4 mp mfb : Nat) (k : Int) (hsa hsb fina : Stmt) (s : St)
    (hk0 : k ≠ ENoError) (hk1 : k ≠ EEarlyReturn)
    (hnm : hMatches hsb k = false) :
    ∃ t1 t2 t3,
      (exec (.frame la .skip
          (.seq (.mark m3)
            (.seq (.frame lb .skip (.mark m1) (.seq (.mark m2) (.throw k))
                hsb (.mark mfb))
              (.mark m4)))
          (.mark mp) hsa fina) s).1.trace
        = t1 ++ Ev.finEnd lb :: (t2 ++ Ev.dispatch la k :: t3) := by
  have hB : ∀ sx : St,
      exec (.frame lb .skip (.mark m1) (.seq (.mark m2) (.throw k))
          hsb (.mark mfb)) sx
        = ({ sx with THROWS := k
                     trace := sx.trace ++ [Ev.act m1, Ev.act m2,
                       Ev.finStart lb k, Ev.act mfb, Ev.finEnd lb] }, Flow.norm) := by
    intro sx
    simp [exec, hk0, hk1]
  have hA : atHANDLE .skip
      (.seq (.mark m3)
        (.seq (.frame lb .skip (.mark m1) (.seq (.mark m2) (.throw k))
            hsb (.mark mfb))
          (.mark m4)))
      (.mark mp) s
      = ({ s with THROWS := k
                  trace := s.trace ++ [Ev.act m3, Ev.act m1, Ev.act m2,
                    Ev.finStart lb k, Ev.act mfb, Ev.finEnd lb, Ev.act m4] }, true) := by
    unfold atHANDLE
    simp [exec, hB, hk0]
  rw [exec_frame, hA]
  simp only [if_true]
  obtain ⟨trs, hs1⟩ := doSwitch_trace_obs la hsa
    { s with THROWS := k
             trace := s.trace ++ [Ev.act m3, Ev.act m1, Ev.act m2,
               Ev.finStart lb k, Ev.act mfb, Ev.finEnd lb, Ev.act m4] }
  obtain ⟨trf, hf1⟩ := doFin_trace_ext la fina
    (doSwitch la hsa
      { s with THROWS := k
               trace := s.trace ++ [Ev.act m3, Ev.act m1, Ev.act m2,
                 Ev.finStart lb k, Ev.act mfb, Ev.finEnd lb, Ev.act m4] })
  refine ⟨s.trace ++ [Ev.act m3, Ev.act m1, Ev.act m2, Ev.finStart lb k,
      Ev.act mfb], [Ev.act m4], trs ++ trf, ?_⟩
  rw [hf1, hs1]
  simp

/-- Witness for C7 at concrete labels, marks and kind. -/
theorem C7_inner_finalizes_before_outer_dispatch_witness :
    (EIOError ≠ ENoError ∧ EIOError ≠ EEarlyReturn ∧ hMatches .hnil EIOError = false)
    ∧ ∃ t1 t2 t3,
      (exec (.frame 1 .skip
          (.seq (.mark 30)
            (.seq (.frame 2 .skip (.mark 31) (.seq (.mark 32) (.throw EIOError))
                .hnil (.mark 33))
              (.mark 34)))
          (.mark 35) (.hother (.mark 36)) (.mark 37)) initSt).1.trace
        = t1 ++ Ev.finEnd 2 :: (t2 ++ Ev.dispatch 1 EIOError :: t3) :=
  ⟨⟨by decide, by decide, by decide⟩,
    C7_inner_finalizes_before_outer_dispatch 1 2 31 32 30 34 35 33 EIOError
      (.hother (.mark 36)) .hnil (.mark 37) initSt (by decide) (by decide) (by decide)⟩

end Libex
